import Mathlib

set_option linter.unusedVariables false

/-!
Verification development for the work-centric coordination engine of the
`location_tracker` repository (source: `src/App.jsx`).  The JavaScript
source is shallowly embedded below: numbers become real numbers, JS `Map`
and arrays become lists, `null`/`undefined` fields become `Option`, the
in-place mutation of shared `Device` objects becomes explicit state
passing, and the asynchronous pub/sub side effects become explicit lists
of published snapshots returned next to the new state.
-/

open Real

namespace LocationTracker

/-- Model of JavaScript `Math.atan2 y x` on real numbers (the standard
two-argument arctangent; real numbers have no signed zero, so the
`x = -0.0` corner of IEEE atan2 does not arise). -/
noncomputable def atan2 (y x : ℝ) : ℝ :=
  if 0 < x then Real.arctan (y / x)
  else if x < 0 ∧ 0 ≤ y then Real.arctan (y / x) + π
  else if x < 0 then Real.arctan (y / x) - π
  else if 0 < y then π / 2
  else if y < 0 then -(π / 2)
  else 0

/-- `haversine(lat1, lon1, lat2, lon2)` from `App.jsx` lines 14-24:
great-circle distance in km with Earth radius `R = 6371`. -/
noncomputable def haversine (lat1 lon1 lat2 lon2 : ℝ) : ℝ :=
  let R : ℝ := 6371
  let dLat := (lat2 - lat1) * (π / 180)
  let dLon := (lon2 - lon1) * (π / 180)
  let a :=
    Real.sin (dLat / 2) ^ 2 +
      Real.cos (lat1 * (π / 180)) * Real.cos (lat2 * (π / 180)) *
        Real.sin (dLon / 2) ^ 2
  R * 2 * atan2 (Real.sqrt a) (Real.sqrt (1 - a))

/-- Insert `x` into `l`, placing it after every element `y` with `le y x`
(i.e. after every `y` whose JS comparator result `cmp y x` is `≤ 0`). -/
def jsInsert (le : α → α → Prop) [DecidableRel le] (x : α) : List α → List α
  | [] => [x]
  | y :: ys => if le y x then y :: jsInsert le x ys else x :: y :: ys

/-- Model of JavaScript `Array.prototype.sort` with a comparator: a stable
sort.  `le a b` models `cmp a b ≤ 0` ("`a` may stay before `b`"); for the
total, consistent comparators used in `App.jsx` the stable result is
unique, so this insertion sort is a faithful model. -/
def jsSort (le : α → α → Prop) [DecidableRel le] (l : List α) : List α :=
  l.foldl (fun acc x => jsInsert le x acc) []

end LocationTracker

namespace LocationTracker

/-- A registered device (`registerDevice`, `App.jsx` lines 379-394).
Positions are `(latitude, longitude)` pairs; `position = none` models the
JS `null`, `lastUpdate` is a millisecond timestamp (`Date` values compare
by their numeric value in the staleness check).  The unused
`lastEmergencyUpdate` field is omitted. -/
structure Device where
  id : String
  name : String
  position : Option (ℝ × ℝ)
  lastUpdate : Option ℤ
  isOnline : Bool
  accuracy : ℝ
  workRole : String
  emergencyResponder : Bool

/-- A medical facility produced by `WorkCentricHospitalService`
(`App.jsx` lines 138-154 and 176-189).  The opaque `tags` object is
omitted; descriptive string fields absent on the JS object are modelled
as `""`. -/
structure Facility where
  id : String
  name : String
  type : String
  position : ℝ × ℝ
  distance : ℝ
  address : String
  phone : String
  emergency : Bool
  website : String
  wheelchairAccess : Bool
  openingHours : String
  emergencyHours : String
  specialties : String
  workPriority : ℤ

/-- A route as returned by `RoutingService.getRoute` (`App.jsx` lines
50-67).  The `steps` payload is omitted (opaque to the core); a success
route has no `isFallback` field in JS, i.e. it is `undefined`/falsy,
modelled as `false`. -/
structure Route where
  coordinates : List (ℝ × ℝ)
  distance : ℝ
  duration : ℝ
  isFallback : Bool

/-- A raw route from the external routing provider (`data.routes[0]`):
provider coordinates are `[lng, lat]` pairs, distance in meters,
duration in seconds. -/
structure RawRoute where
  coordinates : List (ℝ × ℝ)
  distanceMeters : ℝ
  durationSeconds : ℝ

/-- Outcome of the external routing call as observed by `getRoute`:
either a parsed response with its route list, or a thrown failure
(network error / non-`ok` HTTP response). -/
inductive RouteResponse where
  | success (routes : List RawRoute)
  | httpError
  | networkError

/-- A facility merged with its route (`getMultipleRoutes`, `App.jsx`
lines 77-94). -/
structure RankedRoute where
  fac : Facility
  route : Option Route
  roadDistance : ℝ
  estimatedTime : ℝ

/-- A worker-to-worker connection (`OptimizedNetworkPathfinder`).  JS
builds ad-hoc objects: work-optimal paths carry `workScore` and no
`isEmergencyPath`, emergency connections carry `isEmergencyPath` and no
`workScore`; the absent fields are modelled by `0` / `false`. -/
structure Connection where
  distance : ℝ
  fromDev : Device
  toDev : Device
  positions : List (ℝ × ℝ)
  workScore : ℝ
  isEmergencyPath : Bool

/-- A raw overpass element as consumed by `findNearbyHospitals`
(`App.jsx` lines 115-155).  Tag lookups are modelled by the fields the
code actually reads; a missing string tag is `""` (JS falsy), matching
the `||` defaulting in the source. -/
structure RawElement where
  eid : ℤ
  etype : String
  lat : Option ℝ
  lon : Option ℝ
  center : Option (ℝ × ℝ)
  hasNodes : Bool
  tagEmergencyYes : Bool
  tagEmergencyMedicalYes : Bool
  tagSpecialityHasEmergency : Bool
  tagWheelchairYes : Bool
  tagOpeningHoursEmergency : String
  tagName : String
  tagNameEn : String
  tagAmenity : String
  tagAddrStreet : String
  tagAddrFull : String
  tagPhone : String
  tagContactPhone : String
  tagWebsite : String
  tagContactWebsite : String
  tagOpeningHours : String
  tagSpeciality : String

/-- Outcome of the overpass directory call as observed by
`findNearbyHospitals`: a parsed element list, or a thrown failure. -/
inductive DirectoryResponse where
  | success (elements : List RawElement)
  | failure

/-- JavaScript `a || b` for strings (`""` is falsy). -/
def jsOrS (a b : String) : String := if a = "" then b else a

end LocationTracker

namespace LocationTracker

/-- Comparator order of the hospital sort in `findNearbyHospitals`
(`App.jsx` lines 156-161): `hospCmpLe a b` holds iff the JS comparator
returns `≤ 0` on `(a, b)`, i.e. descending `workPriority` with ties
broken by ascending `distance`. -/
def hospCmpLe (a b : Facility) : Prop :=
  b.workPriority < a.workPriority ∨
    (b.workPriority = a.workPriority ∧ a.distance ≤ b.distance)

noncomputable instance : DecidableRel hospCmpLe := fun a b => by
  unfold hospCmpLe; infer_instance

/-- Comparator order of the fallback hospital sort (`App.jsx` line 189):
descending `workPriority` only. -/
def priCmpLe (a b : Facility) : Prop := b.workPriority ≤ a.workPriority

instance : DecidableRel priCmpLe := fun a b => by
  unfold priCmpLe; infer_instance

/-- Coordinate resolution of `findNearbyHospitals` (`App.jsx` lines
116-125): a node's own coordinates, else the element's `center`; a `way`
with `nodes` returns `null` explicitly, and any other shape leaves the
coordinates undefined — both shapes are dropped downstream. -/
def resolveCoords (e : RawElement) : Option ℝ × Option ℝ :=
  if e.etype = "node" then (e.lat, e.lon)
  else
    match e.center with
    | some c => (some c.1, some c.2)
    | none => (none, none)

/-- Mapping of one overpass element to a facility, or `none` when the
element is dropped (`App.jsx` lines 115-155).  The JS coordinate check
`if (!lat || !lon) return null` treats the numeric value `0` as missing,
which is modelled literally. -/
noncomputable def elemToFacility (latitude longitude : ℝ) (e : RawElement) :
    Option Facility :=
  match resolveCoords e with
  | (some lat, some lon) =>
    if lat = 0 ∨ lon = 0 then none
    else
      let distance := haversine latitude longitude lat lon
      let isEmergency : Bool :=
        e.tagEmergencyYes || e.tagEmergencyMedicalYes ||
          e.tagSpecialityHasEmergency
      let workPriority : ℤ :=
        (if isEmergency then 10 else 0) +
          (if e.tagWheelchairYes then 5 else 0) +
          (if e.tagOpeningHoursEmergency ≠ "" then 3 else 0) +
          (if distance < 2 then 8
           else if distance < 5 then 5
           else if distance < 10 then 2
           else 0)
      some
        { id := "hospital-" ++ toString e.eid
          name := jsOrS e.tagName (jsOrS e.tagNameEn "Medical Facility")
          type := if e.tagAmenity = "clinic" then "clinic" else "hospital"
          position := (lat, lon)
          distance := distance
          address := jsOrS e.tagAddrStreet (jsOrS e.tagAddrFull "")
          phone := jsOrS e.tagPhone (jsOrS e.tagContactPhone "")
          emergency := isEmergency
          website := jsOrS e.tagWebsite (jsOrS e.tagContactWebsite "")
          wheelchairAccess := e.tagWheelchairYes
          openingHours := e.tagOpeningHours
          emergencyHours := e.tagOpeningHoursEmergency
          specialties := e.tagSpeciality
          workPriority := workPriority }
  | _ => none

/-- `getFallbackHospitals` (`App.jsx` lines 169-190): the deterministic
synthetic facility set, sorted by descending `workPriority` only. -/
noncomputable def getFallbackHospitals (latitude longitude : ℝ) :
    List Facility :=
  let fallbackHospitals :
      List (String × ℝ × ℝ × Bool) :=
    [("Emergency Medical Center", latitude + 0.01, longitude + 0.01, true),
     ("General Hospital", latitude - 0.01, longitude + 0.01, false),
     ("City Medical Center", latitude + 0.01, longitude - 0.01, false),
     ("Regional Hospital", latitude - 0.01, longitude - 0.01, true)]
  jsSort priCmpLe <|
    (List.range fallbackHospitals.length).zip fallbackHospitals |>.map
      (fun p =>
        let idx := p.1
        let h := p.2
        { id := "fallback-hospital-" ++ toString idx
          name := h.1
          type := "hospital"
          position := (h.2.1, h.2.2.1)
          distance := haversine latitude longitude h.2.1 h.2.2.1
          address := "Address not available"
          phone := "Emergency: 911"
          emergency := h.2.2.2
          website := ""
          wheelchairAccess := false
          openingHours := ""
          emergencyHours := ""
          specialties := ""
          workPriority := if h.2.2.2 then 10 else 5 })

/-- `findNearbyHospitals` (`App.jsx` lines 100-167).  The `radiusKm`
argument only shapes the overpass query, whose observed outcome is the
`resp` parameter; any thrown failure lands in the `catch` and yields the
fallback set, so the function is total. -/
noncomputable def findNearbyHospitals (latitude longitude : ℝ)
    (radiusKm : ℝ) (resp : DirectoryResponse) : List Facility :=
  match resp with
  | .success elements =>
    jsSort hospCmpLe (elements.filterMap (elemToFacility latitude longitude))
  | .failure => getFallbackHospitals latitude longitude

/-- `RoutingService.getRoute` (`App.jsx` lines 39-69).  A non-`ok`
response, a thrown network error and an empty `routes` array all reach
the `catch` block and produce the straight-line fallback route, so the
call never propagates an error. -/
noncomputable def getRoute (fromLat fromLng toLat toLng : ℝ)
    (resp : RouteResponse) : Route :=
  match resp with
  | .success (route :: _) =>
    { coordinates := route.coordinates.map (fun c => (c.2, c.1))
      distance := route.distanceMeters / 1000
      duration := route.durationSeconds / 60
      isFallback := false }
  | _ =>
    { coordinates := [(fromLat, fromLng), (toLat, toLng)]
      distance := haversine fromLat fromLng toLat toLng
      duration := haversine fromLat fromLng toLat toLng * 2
      isFallback := true }

/-- `RoutingService.getMultipleRoutes` (`App.jsx` lines 71-95).  Each
destination's `getRoute` outcome is its entry of `resps` (missing
entries behave as network errors).  Since `getRoute` never rejects,
`Promise.allSettled` always reports `fulfilled`, so the `rejected`
branch of the JS code is unreachable and not modelled. -/
noncomputable def getMultipleRoutes (fromLat fromLng : ℝ)
    (destinations : List Facility) (resps : List RouteResponse) :
    List RankedRoute :=
  (List.range destinations.length).zip destinations |>.map (fun p =>
    let route := getRoute fromLat fromLng p.2.position.1 p.2.position.2
      (resps.getD p.1 .networkError)
    { fac := p.2
      route := some route
      roadDistance := route.distance
      estimatedTime := route.duration })

end LocationTracker

namespace LocationTracker

/-- Position of a device that passed the `d.position && d.isOnline`
filter; the JS code indexes `position[0]`/`position[1]` directly and
would crash on `null`, which the callers rule out, so the default is
never observable. -/
def devPos (d : Device) : ℝ × ℝ := d.position.getD (0, 0)

/-- Great-circle distance from a device to a facility position, as used
by the topology builders. -/
noncomputable def devFacDist (d : Device) (pos : ℝ × ℝ) : ℝ :=
  haversine (devPos d).1 (devPos d).2 pos.1 pos.2

/-- The online-and-positioned filter used throughout the engine. -/
def isOnlinePositioned (d : Device) : Bool := d.position.isSome && d.isOnline

/-- The fold of `App.jsx` lines 252-266 / 358-373: scan `ds` keeping the
device strictly closer to `pos` than the current best (ties keep the
earlier device). -/
noncomputable def pickClosest (pos : ℝ × ℝ) (init : Device)
    (ds : List Device) : Device :=
  ds.foldl (fun best d => if devFacDist d pos < devFacDist best pos then d
    else best) init

/-- All unordered pairs `(nodes[i], nodes[j])`, `i < j`, in the order of
the nested loops of `findWorkOptimalPaths`. -/
def allPairs : List α → List (α × α)
  | [] => []
  | x :: xs => xs.map (fun y => (x, y)) ++ allPairs xs

/-- Comparator order of the work-optimal sort (`App.jsx` line 223):
descending `workScore`. -/
def scoreCmpLe (a b : Connection) : Prop := b.workScore ≤ a.workScore

noncomputable instance : DecidableRel scoreCmpLe := fun a b => by
  unfold scoreCmpLe; infer_instance

/-- Comparator order of the MST pre-sort (`App.jsx` line 229): ascending
`distance`. -/
def distCmpLe (a b : Connection) : Prop := a.distance ≤ b.distance

noncomputable instance : DecidableRel distCmpLe := fun a b => by
  unfold distCmpLe; infer_instance

/-- `OptimizedNetworkPathfinder.findWorkOptimalPaths` (`App.jsx` lines
195-224). -/
noncomputable def findWorkOptimalPaths (devices : List Device)
    (hospitals : List Facility) : List Connection :=
  let nodes := devices.filter isOnlinePositioned
  if nodes.length < 2 then []
  else
    let hospitalPositions := (hospitals.take 3).map (·.position)
    let paths := (allPairs nodes).map (fun pr =>
      let dist := devFacDist pr.1 (devPos pr.2)
      let workScore := hospitalPositions.foldl
        (fun ws hospitalPos =>
          if devFacDist pr.1 hospitalPos < 2 ∨ devFacDist pr.2 hospitalPos < 2
          then ws + 20 else ws)
        (100 - dist * 10)
      { distance := dist
        fromDev := pr.1
        toDev := pr.2
        positions := [devPos pr.1, devPos pr.2]
        workScore := workScore
        isEmergencyPath := false })
    jsSort scoreCmpLe paths

/-- The greedy loop of `findMinimumSpanningTree` (`App.jsx` lines
230-243), with the early `break` once `mst.length` reaches `target`
(`target` is the JS number `nodes.length - 1`, hence an integer). -/
noncomputable def mstGreedy (target : ℤ) :
    List Connection → List Connection → List String → List Connection
  | [], mst, _ => mst
  | p :: ps, mst, connectedNodes =>
    if connectedNodes.contains p.fromDev.id ∧
        connectedNodes.contains p.toDev.id then
      mstGreedy target ps mst connectedNodes
    else if ((mst ++ [p]).length : ℤ) = target then mst ++ [p]
    else mstGreedy target ps (mst ++ [p])
      (p.toDev.id :: p.fromDev.id :: connectedNodes)

/-- `OptimizedNetworkPathfinder.findMinimumSpanningTree` (`App.jsx`
lines 226-245). -/
noncomputable def findMinimumSpanningTree (devices : List Device)
    (hospitals : List Facility) : List Connection :=
  if (findWorkOptimalPaths devices hospitals).length = 0 then []
  else
    mstGreedy ((devices.filter isOnlinePositioned).length - 1)
      (jsSort distCmpLe (findWorkOptimalPaths devices hospitals)) [] []

/-- `OptimizedNetworkPathfinder.createEmergencyTopology` (`App.jsx`
lines 247-282). -/
noncomputable def createEmergencyTopology (devices : List Device)
    (hospitals : List Facility) : List Connection :=
  let onlineDevices := devices.filter isOnlinePositioned
  match onlineDevices, hospitals with
  | [], _ => []
  | _, [] => []
  | d0 :: _, nearestHospital :: _ =>
    let closestToHospital :=
      pickClosest nearestHospital.position d0 onlineDevices
    onlineDevices.filterMap (fun device =>
      if device.id ≠ closestToHospital.id then
        some
          { distance := devFacDist closestToHospital (devPos device)
            fromDev := closestToHospital
            toDev := device
            positions := [devPos closestToHospital, devPos device]
            workScore := 0
            isEmergencyPath := true }
      else none)

end LocationTracker

namespace LocationTracker

/-- The snapshot handed to every subscriber callback
(`notifySubscribers`, `App.jsx` lines 427-439). -/
structure Snapshot where
  devices : List Device
  connections : List Connection
  hospitals : List Facility
  hospitalRoutes : List RankedRoute
  topology : String
  emergencyMode : Bool
  emergencyRoute : Option RankedRoute
  shortestRoute : Option RankedRoute

/-- State of one `WorkCentricLocationService` instance.  The subscriber
callback set is modelled by its size; a published snapshot is delivered
to every subscriber.  The never-read `routingCache`, and the unused
`prioritizeSpeed` / `maxResponseTime` work-context knobs, are omitted. -/
structure ServiceState where
  devices : List Device
  hospitals : List Facility
  hospitalRoutes : List RankedRoute
  subscribers : ℕ
  networkTopology : String
  connections : List Connection
  emergencyMode : Bool
  autoSelectShortestRoute : Option RankedRoute

/-- Fresh service state (`constructor`, `App.jsx` lines 287-300). -/
def initialState : ServiceState :=
  { devices := []
    hospitals := []
    hospitalRoutes := []
    subscribers := 0
    networkTopology := "emergency"
    connections := []
    emergencyMode := false
    autoSelectShortestRoute := none }

/-- `getEmergencyRoute` (`App.jsx` lines 411-416). -/
def getEmergencyRoute (s : ServiceState) : Option RankedRoute :=
  s.hospitalRoutes.head?

/-- The snapshot `notifySubscribers` builds from the current state. -/
def mkSnapshot (s : ServiceState) : Snapshot :=
  { devices := s.devices
    connections := s.connections
    hospitals := s.hospitals
    hospitalRoutes := s.hospitalRoutes
    topology := s.networkTopology
    emergencyMode := s.emergencyMode
    emergencyRoute := getEmergencyRoute s
    shortestRoute := s.autoSelectShortestRoute }

/-- JavaScript `Map.prototype.set`: replace in place when the key
exists, append otherwise. -/
def mapSet (id : String) (d : Device) (l : List Device) : List Device :=
  if l.any (fun e => e.id = id) then
    l.map (fun e => if e.id = id then d else e)
  else l ++ [d]

/-- The per-device reset of `assignWorkRoles` (`App.jsx` lines 353-356). -/
def roleReset (d : Device) : Device :=
  { d with workRole := "worker", emergencyResponder := false }

/-- The promotion of the closest device (`App.jsx` lines 374-375). -/
def rolePromote (d : Device) : Device :=
  { d with workRole := "emergency-responder", emergencyResponder := true }

/-- `assignWorkRoles` (`App.jsx` lines 352-377): reset every device to
`worker`, then promote the device closest to the top-ranked hospital.
The JS promotion mutates the single closest object; with value
semantics it is rendered as promotion of the devices carrying that
object's `id` (identical whenever ids are unique, which the registry
guarantees). -/
noncomputable def assignWorkRoles (devices : List Device)
    (hospitals : List Facility) : List Device :=
  let reset := devices.map roleReset
  match hospitals, reset with
  | nearestHospital :: _, d0 :: _ =>
    let closestDevice := pickClosest nearestHospital.position d0 reset
    reset.map (fun d =>
      if d.id = closestDevice.id then rolePromote d else d)
  | _, _ => reset

/-- Write the mutations `assignWorkRoles` performed on the shared
objects of the filtered `onlineDevices` array back into the registry
list: the `i`-th device passing the filter is the `i`-th element of
`assigned`. -/
def mergeRoles (pred : Device → Bool) :
    List Device → List Device → List Device
  | [], _ => []
  | d :: ds, assigned =>
    if pred d then
      match assigned with
      | a :: rest => a :: mergeRoles pred ds rest
      | [] => d :: mergeRoles pred ds []
    else d :: mergeRoles pred ds assigned

/-- `updateNetworkTopology` (`App.jsx` lines 329-350): with fewer than
two online positioned devices, clear the connections and return before
any role assignment; otherwise rebuild connections for the current mode
and run `assignWorkRoles` over the online devices. -/
noncomputable def updateNetworkTopology (s : ServiceState) : ServiceState :=
  let onlineDevices := s.devices.filter isOnlinePositioned
  if onlineDevices.length < 2 then { s with connections := [] }
  else
    let connections :=
      match s.networkTopology with
      | "emergency" => createEmergencyTopology onlineDevices s.hospitals
      | "work-optimal" =>
        (findWorkOptimalPaths onlineDevices s.hospitals).take
          (onlineDevices.length * 2)
      | "mst" => findMinimumSpanningTree onlineDevices s.hospitals
      | _ => createEmergencyTopology onlineDevices s.hospitals
    { s with
        connections := connections
        devices := mergeRoles isOnlinePositioned s.devices
          (assignWorkRoles onlineDevices s.hospitals) }

/-- `registerDevice` (`App.jsx` lines 379-394): add the device and
rebuild the topology.  No `notifySubscribers` call occurs, hence the
empty publication list. -/
noncomputable def registerDevice (deviceId deviceName workRole : String)
    (s : ServiceState) : ServiceState × List Snapshot :=
  let device : Device :=
    { id := deviceId
      name := deviceName
      position := none
      lastUpdate := none
      isOnline := true
      accuracy := 0
      workRole := workRole
      emergencyResponder := false }
  (updateNetworkTopology { s with devices := mapSet deviceId device s.devices },
   [])

/-- `removeDevice` (`App.jsx` lines 445-449): delete, rebuild, publish
one snapshot. -/
noncomputable def removeDevice (deviceId : String) (s : ServiceState) :
    ServiceState × List Snapshot :=
  let s1 := updateNetworkTopology
    { s with devices := s.devices.filter (fun d => d.id ≠ deviceId) }
  (s1, [mkSnapshot s1])

/-- `setNetworkTopology` (`App.jsx` lines 451-454): switch mode and
rebuild.  No `notifySubscribers` call occurs. -/
noncomputable def setNetworkTopology (topology : String)
    (s : ServiceState) : ServiceState × List Snapshot :=
  (updateNetworkTopology { s with networkTopology := topology }, [])

/-- The composite urgency comparator of `updateHospitals` (`App.jsx`
lines 308-312): descending `workPriority + 20 / (roadDistance + 0.1)`. -/
noncomputable def urgency (r : RankedRoute) : ℝ :=
  (r.fac.workPriority : ℝ) + 20 / (r.roadDistance + 0.1)

/-- Comparator order of the ranked-route sort: `urgencyCmpLe a b` iff the
JS comparator `scoreB - scoreA` is `≤ 0` on `(a, b)`. -/
noncomputable def urgencyCmpLe (a b : RankedRoute) : Prop :=
  urgency b ≤ urgency a

noncomputable instance : DecidableRel urgencyCmpLe := fun a b => by
  unfold urgencyCmpLe; infer_instance

/-- `updateHospitals` (`App.jsx` lines 302-319).  The directory and
routing outcomes are the `dirResp` / `routeResps` oracle parameters.  In
this model nothing in the `try` block throws (both collaborator wrappers
absorb their failures), so the `catch` branch is unreachable and
`notifySubscribers` always publishes exactly one snapshot. -/
noncomputable def updateHospitals (latitude longitude radiusKm : ℝ)
    (dirResp : DirectoryResponse) (routeResps : List RouteResponse)
    (s : ServiceState) : ServiceState × List Snapshot :=
  let hospitals := findNearbyHospitals latitude longitude radiusKm dirResp
  let s1 := { s with hospitals := hospitals }
  let s2 :=
    if hospitals.length > 0 then
      let topHospitals := hospitals.take 5
      let hospitalRoutes := jsSort urgencyCmpLe
        (getMultipleRoutes latitude longitude topHospitals routeResps)
      { s1 with
          hospitalRoutes := hospitalRoutes
          autoSelectShortestRoute := hospitalRoutes.head? }
    else s1
  (s2, [mkSnapshot s2])

/-- `updateDeviceLocation` (`App.jsx` lines 396-409): unknown ids are a
no-op; a known id is updated, hospitals are refreshed (publishing one
snapshot), the topology is rebuilt, and the deferred
`setTimeout(notifySubscribers, 100)` publishes a second snapshot. -/
noncomputable def updateDeviceLocation (deviceId : String) (pos : ℝ × ℝ)
    (accuracy : ℝ) (now : ℤ) (dirResp : DirectoryResponse)
    (routeResps : List RouteResponse) (s : ServiceState) :
    ServiceState × List Snapshot :=
  if s.devices.any (fun d => d.id = deviceId) then
    let s1 := { s with
      devices := s.devices.map (fun d =>
        if d.id = deviceId then
          { d with position := some pos, lastUpdate := some now,
                   accuracy := accuracy, isOnline := true }
        else d) }
    let r2 := updateHospitals pos.1 pos.2 2 dirResp routeResps s1
    let s3 := updateNetworkTopology r2.1
    (s3, r2.2 ++ [mkSnapshot s3])
  else (s, [])

/-- The per-device staleness condition of `markOfflineIfStale`
(`App.jsx` line 460): a recorded `lastUpdate` strictly more than
30000 ms before `now`. -/
def staleAt (now : ℤ) (d : Device) : Bool :=
  match d.lastUpdate with
  | some t => now - t > 30000
  | none => false

/-- The sweep's effect on a single device: only an online device with a
stale `lastUpdate` is flipped offline. -/
def sweepDev (now : ℤ) (d : Device) : Device :=
  if staleAt now d ∧ d.isOnline then { d with isOnline := false } else d

/-- `markOfflineIfStale` (`App.jsx` lines 456-471): sweep all devices;
only when at least one online device went offline rebuild the topology
and publish one snapshot. -/
noncomputable def markOfflineIfStale (now : ℤ) (s : ServiceState) :
    ServiceState × List Snapshot :=
  let swept := { s with devices := s.devices.map (sweepDev now) }
  if s.devices.any (fun d => staleAt now d && d.isOnline) then
    let s1 := updateNetworkTopology swept
    (s1, [mkSnapshot s1])
  else (swept, [])

end LocationTracker

namespace LocationTracker

/-- The sortedness property claimed of every ranker output: adjacent
pairs are in descending `workPriority` order with ties broken by
ascending `distance`. -/
def claimSorted (l : List Facility) : Prop :=
  l.Chain' (fun x y => x.workPriority > y.workPriority ∨
    (x.workPriority = y.workPriority ∧ x.distance ≤ y.distance))

/-- Descending-`workPriority` sortedness (what the fallback sort
actually guarantees). -/
def prioritySorted (l : List Facility) : Prop :=
  l.Chain' (fun x y => y.workPriority ≤ x.workPriority)

/-- Alternation of the `emergency` flags along a facility list, as the
claim reads "alternating true/false across the list". -/
def alternatingFlags (l : List Facility) : Prop :=
  l.Chain' (fun x y => x.emergency ≠ y.emergency)

/-- A freshly registered-looking device at a given position, used as a
concrete test input. -/
def exDevice (i : String) (p : Option (ℝ × ℝ)) : Device :=
  { id := i
    name := "Worker"
    position := p
    lastUpdate := none
    isOnline := true
    accuracy := 0
    workRole := "worker"
    emergencyResponder := false }

/-- A concrete facility used as a test input. -/
def exFacility : Facility :=
  { id := "h1"
    name := "Hospital One"
    type := "hospital"
    position := (0, 0)
    distance := 0
    address := ""
    phone := ""
    emergency := true
    website := ""
    wheelchairAccess := false
    openingHours := ""
    emergencyHours := ""
    specialties := ""
    workPriority := 10 }

/-- Concrete state with one subscriber and nothing else. -/
def exStateSub : ServiceState := { initialState with subscribers := 1 }

/-- Concrete state with exactly one online positioned device and one
facility. -/
def exStateOne : ServiceState :=
  { initialState with
      devices := [exDevice "a" (some (1, 1))]
      hospitals := [exFacility] }

/-- Concrete state with two online positioned devices and one facility. -/
def exStateTwo : ServiceState :=
  { initialState with
      devices := [exDevice "a" (some (0, 0)), exDevice "b" (some (1, 1))]
      hospitals := [exFacility] }

/-- Concrete state with one online device whose `lastUpdate` is recent
relative to the probe time `100000`. -/
def exStateFresh : ServiceState :=
  { initialState with
      devices := [{ exDevice "a" (some (0, 0)) with lastUpdate := some 90000 }] }

/-- Concrete overpass node element whose latitude resolves to exactly
`0`. -/
def exElemZero : RawElement :=
  { eid := 7
    etype := "node"
    lat := some 0
    lon := some 5
    center := none
    hasNodes := false
    tagEmergencyYes := true
    tagEmergencyMedicalYes := false
    tagSpecialityHasEmergency := false
    tagWheelchairYes := false
    tagOpeningHoursEmergency := ""
    tagName := "Zero Hospital"
    tagNameEn := ""
    tagAmenity := "hospital"
    tagAddrStreet := ""
    tagAddrFull := ""
    tagPhone := ""
    tagContactPhone := ""
    tagWebsite := ""
    tagContactWebsite := ""
    tagOpeningHours := ""
    tagSpeciality := "" }

end LocationTracker

namespace LocationTracker

/-- Unfolded form of `haversine` (the `let` bindings reduced). -/
theorem haversine_def (lat1 lon1 lat2 lon2 : ℝ) :
    haversine lat1 lon1 lat2 lon2 =
      6371 * 2 *
        atan2
          (Real.sqrt (Real.sin ((lat2 - lat1) * (π / 180) / 2) ^ 2 +
            Real.cos (lat1 * (π / 180)) * Real.cos (lat2 * (π / 180)) *
              Real.sin ((lon2 - lon1) * (π / 180) / 2) ^ 2))
          (Real.sqrt (1 - (Real.sin ((lat2 - lat1) * (π / 180) / 2) ^ 2 +
            Real.cos (lat1 * (π / 180)) * Real.cos (lat2 * (π / 180)) *
              Real.sin ((lon2 - lon1) * (π / 180) / 2) ^ 2))) := rfl

/-- C9: the distance function is symmetric and vanishes on the diagonal:
`haversine` is invariant under swapping the two coordinates, and the
distance from any coordinate to itself is `0`. -/
theorem haversine_symm_and_self_eq_zero :
    (∀ lat1 lon1 lat2 lon2 : ℝ,
      haversine lat1 lon1 lat2 lon2 = haversine lat2 lon2 lat1 lon1) ∧
    (∀ lat lon : ℝ, haversine lat lon lat lon = 0) := by
  constructor
  · intro lat1 lon1 lat2 lon2
    rw [haversine_def, haversine_def]
    have hLat : (lat1 - lat2) * (π / 180) / 2 =
        -((lat2 - lat1) * (π / 180) / 2) := by ring
    have hLon : (lon1 - lon2) * (π / 180) / 2 =
        -((lon2 - lon1) * (π / 180) / 2) := by ring
    rw [hLat, hLon, Real.sin_neg, Real.sin_neg]
    ring_nf
  · intro lat lon
    rw [haversine_def]
    have h : (lat - lat) * (π / 180) / 2 = 0 := by ring
    have h' : (lon - lon) * (π / 180) / 2 = 0 := by ring
    rw [h, h', Real.sin_zero]
    have ha : (0 : ℝ) ^ 2 +
        Real.cos (lat * (π / 180)) * Real.cos (lat * (π / 180)) * 0 ^ 2
        = 0 := by ring
    rw [ha, Real.sqrt_zero, sub_zero, Real.sqrt_one]
    unfold atan2
    rw [if_pos one_pos]
    norm_num [Real.arctan_zero]

end LocationTracker

namespace LocationTracker

theorem jsInsert_mem {α : Type _} {le : α → α → Prop} [DecidableRel le]
    (x a : α) (l : List α) : a ∈ jsInsert le x l ↔ a = x ∨ a ∈ l := by
  induction l with
  | nil => simp [jsInsert]
  | cons y ys ih =>
    by_cases h : le y x
    · simp only [jsInsert, if_pos h, List.mem_cons, ih]
      tauto
    · simp only [jsInsert, if_neg h, List.mem_cons]

theorem jsInsert_pairwise {α : Type _} {le : α → α → Prop} [DecidableRel le]
    (htot : ∀ a b, le a b ∨ le b a)
    (htr : ∀ a b c, le a b → le b c → le a c)
    (x : α) (l : List α) (hl : l.Pairwise le) :
    (jsInsert le x l).Pairwise le := by
  induction l with
  | nil => simp [jsInsert]
  | cons y ys ih =>
    rcases List.pairwise_cons.1 hl with ⟨hy, hys⟩
    by_cases h : le y x
    · simp only [jsInsert, if_pos h]
      refine List.pairwise_cons.2 ⟨?_, ih hys⟩
      intro b hb
      rcases (jsInsert_mem x b ys).1 hb with rfl | hbys
      · exact h
      · exact hy b hbys
    · simp only [jsInsert, if_neg h]
      refine List.pairwise_cons.2 ⟨?_, hl⟩
      intro b hb
      rcases List.mem_cons.1 hb with rfl | hbys
      · exact (htot x b).resolve_right h
      · exact htr x y b ((htot x y).resolve_right h) (hy b hbys)

theorem jsSort_pairwise {α : Type _} {le : α → α → Prop} [DecidableRel le]
    (htot : ∀ a b, le a b ∨ le b a)
    (htr : ∀ a b c, le a b → le b c → le a c)
    (l : List α) : (jsSort le l).Pairwise le := by
  suffices h : ∀ acc : List α, acc.Pairwise le →
      (l.foldl (fun acc x => jsInsert le x acc) acc).Pairwise le by
    exact h [] List.Pairwise.nil
  induction l with
  | nil => intro acc hacc; simpa using hacc
  | cons x xs ih =>
    intro acc hacc
    exact ih (jsInsert le x acc) (jsInsert_pairwise htot htr x acc hacc)

theorem hospCmpLe_total (a b : Facility) : hospCmpLe a b ∨ hospCmpLe b a := by
  unfold hospCmpLe
  rcases lt_trichotomy a.workPriority b.workPriority with h | h | h
  · exact Or.inr (Or.inl h)
  · rcases le_total a.distance b.distance with hd | hd
    · exact Or.inl (Or.inr ⟨h.symm, hd⟩)
    · exact Or.inr (Or.inr ⟨h, hd⟩)
  · exact Or.inl (Or.inl h)

theorem hospCmpLe_trans (a b c : Facility) (hab : hospCmpLe a b)
    (hbc : hospCmpLe b c) : hospCmpLe a c := by
  unfold hospCmpLe at *
  rcases hab with h1 | ⟨h1, d1⟩ <;> rcases hbc with h2 | ⟨h2, d2⟩
  · exact Or.inl (by omega)
  · exact Or.inl (by omega)
  · exact Or.inl (by omega)
  · exact Or.inr ⟨by omega, by linarith⟩

theorem priCmpLe_total (a b : Facility) : priCmpLe a b ∨ priCmpLe b a :=
  le_total b.workPriority a.workPriority

theorem priCmpLe_trans (a b c : Facility) (hab : priCmpLe a b)
    (hbc : priCmpLe b c) : priCmpLe a c :=
  le_trans hbc hab

/-- C3 (amended): the success path of the hospital ranker is fully
sorted as claimed (descending `workPriority`, ties by ascending
`distance`); the fallback path is only sorted by descending
`workPriority` — its comparator ignores `distance`, and the distance
tiebreak can fail there (see the counterexample). -/
theorem c3_ranker_sorted_amended :
    (∀ (latitude longitude radiusKm : ℝ) (elements : List RawElement),
      claimSorted (findNearbyHospitals latitude longitude radiusKm
        (.success elements))) ∧
    (∀ latitude longitude radiusKm : ℝ,
      prioritySorted (findNearbyHospitals latitude longitude radiusKm
        .failure)) := by
  constructor
  · intro la lo r es
    have hp := jsSort_pairwise hospCmpLe_total hospCmpLe_trans
      (es.filterMap (elemToFacility la lo))
    unfold claimSorted findNearbyHospitals
    refine (hp.imp ?_).chain'
    intro a b h
    rcases h with h | ⟨h, hd⟩
    · exact Or.inl h
    · exact Or.inr ⟨h.symm, hd⟩
  · intro la lo r
    have hp := jsSort_pairwise priCmpLe_total priCmpLe_trans
      ((List.range 4).zip
        [("Emergency Medical Center", la + 0.01, lo + 0.01, true),
         ("General Hospital", la - 0.01, lo + 0.01, false),
         ("City Medical Center", la + 0.01, lo - 0.01, false),
         ("Regional Hospital", la - 0.01, lo - 0.01, true)] |>.map
          (fun p =>
            ({ id := "fallback-hospital-" ++ toString p.1
               name := p.2.1
               type := "hospital"
               position := (p.2.2.1, p.2.2.2.1)
               distance := haversine la lo p.2.2.1 p.2.2.2.1
               address := "Address not available"
               phone := "Emergency: 911"
               emergency := p.2.2.2.2
               website := ""
               wheelchairAccess := false
               openingHours := ""
               emergencyHours := ""
               specialties := ""
               workPriority := if p.2.2.2.2 then 10 else 5 } : Facility)))
    unfold prioritySorted findNearbyHospitals getFallbackHospitals
    exact hp.chain'

end LocationTracker

namespace LocationTracker

/-- C4 (amended): on directory failure the ranker deterministically
returns exactly four synthetic facilities offset `±0.01°` from the
origin, the two `emergency` facilities (scored `workPriority = 10`)
sorted before the two others (scored `5`); the `emergency` flags of the
returned list read `true, true, false, false` — two emergencies first,
not an alternation. -/
theorem c4_fallback_amended (latitude longitude radiusKm : ℝ) :
    (findNearbyHospitals latitude longitude radiusKm .failure).length = 4 ∧
    (findNearbyHospitals latitude longitude radiusKm .failure).map
        (fun f => f.position) =
      [(latitude + 0.01, longitude + 0.01),
       (latitude - 0.01, longitude - 0.01),
       (latitude - 0.01, longitude + 0.01),
       (latitude + 0.01, longitude - 0.01)] ∧
    (findNearbyHospitals latitude longitude radiusKm .failure).map
        (fun f => f.emergency) = [true, true, false, false] ∧
    (findNearbyHospitals latitude longitude radiusKm .failure).map
        (fun f => f.workPriority) = [10, 10, 5, 5] :=
  ⟨rfl, rfl, rfl, rfl⟩

theorem not_alternating_of_flags (l : List Facility)
    (h : l.map (fun f => f.emergency) = [true, true, false, false]) :
    ¬ alternatingFlags l := by
  intro halt
  rcases l with _ | ⟨a, t⟩
  · simp at h
  rcases t with _ | ⟨b, rest⟩
  · simp at h
  simp only [List.map_cons, List.cons.injEq] at h
  have hne := (List.chain'_cons.1 halt).1
  rw [h.1, h.2.1] at hne
  exact hne rfl

/-- C4 counterexample: at the spec's own scenario origin
`(22.5958, 88.2636)` the fallback list's `emergency` flags are
`true, true, false, false`, so they do not alternate along the list as
the claim states. -/
theorem c4_counterexample :
    ¬ alternatingFlags (findNearbyHospitals 22.5958 88.2636 2 .failure) :=
  not_alternating_of_flags _ rfl

/-- C5: `getRoute` absorbs every failure (network error, non-success
response, empty route list) into a fallback route that is the two-point
straight line from origin to destination, whose distance is the
haversine distance, whose duration is exactly twice that distance, and
whose `isFallback` flag is `true`; being a total function, it signals no
error to its caller. -/
theorem c5_route_fallback (fromLat fromLng toLat toLng : ℝ)
    (resp : RouteResponse)
    (h : resp = .httpError ∨ resp = .networkError ∨ resp = .success []) :
    (getRoute fromLat fromLng toLat toLng resp).coordinates =
      [(fromLat, fromLng), (toLat, toLng)] ∧
    (getRoute fromLat fromLng toLat toLng resp).distance =
      haversine fromLat fromLng toLat toLng ∧
    (getRoute fromLat fromLng toLat toLng resp).duration =
      2 * (getRoute fromLat fromLng toLat toLng resp).distance ∧
    (getRoute fromLat fromLng toLat toLng resp).isFallback = true := by
  rcases h with rfl | rfl | rfl <;>
    exact ⟨rfl, rfl,
      show haversine fromLat fromLng toLat toLng * 2 =
        2 * haversine fromLat fromLng toLat toLng from mul_comm _ 2, rfl⟩

theorem c5_witness :
    (RouteResponse.httpError = RouteResponse.httpError ∨
      RouteResponse.httpError = RouteResponse.networkError ∨
      RouteResponse.httpError = RouteResponse.success []) ∧
    (getRoute 0 0 1 1 .httpError).coordinates = [(0, 0), (1, 1)] ∧
    (getRoute 0 0 1 1 .httpError).isFallback = true :=
  ⟨Or.inl rfl,
   (c5_route_fallback 0 0 1 1 .httpError (Or.inl rfl)).1,
   (c5_route_fallback 0 0 1 1 .httpError (Or.inl rfl)).2.2.2⟩

theorem mstGreedy_length_le (target : ℤ) (ps : List Connection) :
    ∀ (mst : List Connection) (conn : List String),
      (mst.length : ℤ) < target →
      ((mstGreedy target ps mst conn).length : ℤ) ≤ target := by
  induction ps with
  | nil => intro mst conn h; simpa [mstGreedy] using h.le
  | cons p ps ih =>
    intro mst conn h
    simp only [mstGreedy]
    split_ifs with h1 h2
    · exact ih mst conn h
    · exact le_of_eq h2
    · refine ih _ _ ?_
      have hl : ((mst ++ [p]).length : ℤ) = (mst.length : ℤ) + 1 := by
        simp
      omega

/-- C6: the `mst` topology never returns more than
`max(0, onlineDeviceCount - 1)` connections, where `onlineDeviceCount`
counts devices that are online and have a position. -/
theorem c6_mst_connection_bound (devices : List Device)
    (hospitals : List Facility) :
    ((findMinimumSpanningTree devices hospitals).length : ℤ) ≤
      max 0 (((devices.filter isOnlinePositioned).length : ℤ) - 1) := by
  by_cases hlt : (devices.filter isOnlinePositioned).length < 2
  · have hzero : findWorkOptimalPaths devices hospitals = [] := by
      simp [findWorkOptimalPaths, hlt]
    simp [findMinimumSpanningTree, hzero]
  · unfold findMinimumSpanningTree
    split_ifs with hp
    · simp
    · have h2 : 2 ≤ (devices.filter isOnlinePositioned).length :=
        not_lt.1 hlt
      refine le_trans (mstGreedy_length_le _ _ [] [] ?_) (le_max_of_le_right ?_)
      · simp only [List.length_nil, Nat.cast_zero]
        omega
      · omega

/-- C8: a location update for an unknown device id is a complete no-op:
the service state (registry included) is unchanged, no device is
auto-created, no snapshot is published, and — `updateDeviceLocation`
being total — no error is signalled to the caller. -/
theorem c8_unknown_update_noop (deviceId : String) (pos : ℝ × ℝ)
    (accuracy : ℝ) (now : ℤ) (dirResp : DirectoryResponse)
    (routeResps : List RouteResponse) (s : ServiceState)
    (h : ∀ d ∈ s.devices, d.id ≠ deviceId) :
    updateDeviceLocation deviceId pos accuracy now dirResp routeResps s =
      (s, []) := by
  have hany : s.devices.any (fun d => d.id = deviceId) = false := by
    simp only [List.any_eq_false, decide_eq_true_eq]
    exact h
  simp [updateDeviceLocation, hany]

theorem c8_witness :
    (∀ d ∈ exStateOne.devices, d.id ≠ "ghost") ∧
    updateDeviceLocation "ghost" (0, 0) 0 0 .failure [] exStateOne =
      (exStateOne, []) :=
  ⟨by decide,
   c8_unknown_update_noop "ghost" (0, 0) 0 0 .failure [] exStateOne
     (by decide)⟩

/-- C10: a directory entry whose resolved latitude or longitude equals
exactly `0` is dropped by the ranker, because the JS presence check
`if (!lat || !lon)` treats the number `0` like a missing coordinate:
the entry maps to `none` and the ranking computed with the entry equals
the ranking computed without it. -/
theorem c10_zero_coordinate_dropped (latitude longitude radiusKm : ℝ)
    (e : RawElement) (es : List RawElement)
    (h : (resolveCoords e).1 = some 0 ∨ (resolveCoords e).2 = some 0) :
    elemToFacility latitude longitude e = none ∧
    findNearbyHospitals latitude longitude radiusKm (.success (e :: es)) =
      findNearbyHospitals latitude longitude radiusKm (.success es) := by
  have hnone : elemToFacility latitude longitude e = none := by
    unfold elemToFacility
    rcases hrc : resolveCoords e with ⟨la, lo⟩
    rw [hrc] at h
    cases la with
    | none => rfl
    | some lv =>
      cases lo with
      | none => rfl
      | some lov =>
        simp only [Option.some.injEq] at h
        simp only []
        rw [if_pos h]
  refine ⟨hnone, ?_⟩
  simp [findNearbyHospitals, List.filterMap_cons, hnone]

theorem c10_witness :
    ((resolveCoords exElemZero).1 = some 0 ∨
      (resolveCoords exElemZero).2 = some 0) ∧
    elemToFacility 10 20 exElemZero = none :=
  ⟨Or.inl rfl,
   (c10_zero_coordinate_dropped 10 20 2 exElemZero [] (Or.inl rfl)).1⟩

end LocationTracker

namespace LocationTracker

theorem roleReset_fields (d : Device) :
    (roleReset d).id = d.id ∧ (roleReset d).position = d.position ∧
    (roleReset d).isOnline = d.isOnline := ⟨rfl, rfl, rfl⟩

theorem rolePromote_fields (d : Device) :
    (rolePromote d).id = d.id ∧ (rolePromote d).position = d.position ∧
    (rolePromote d).isOnline = d.isOnline := ⟨rfl, rfl, rfl⟩

theorem mergeRoles_filter_map (pred : Device → Bool) (g : Device → Device)
    (ds : List Device) :
    mergeRoles pred ds ((ds.filter pred).map g) =
      ds.map (fun d => if pred d then g d else d) := by
  induction ds with
  | nil => rfl
  | cons d ds ih =>
    by_cases hp : pred d
    · rw [List.filter_cons_of_pos hp, List.map_cons]
      simp only [mergeRoles, if_pos hp, List.map_cons, ih]
    · rw [List.filter_cons_of_neg (by simpa using hp)]
      simp only [mergeRoles, if_neg hp, List.map_cons, ih]

theorem assignWorkRoles_nil_hosp (ds : List Device) :
    assignWorkRoles ds [] = ds.map roleReset := rfl

theorem assignWorkRoles_nil_dev (hs : List Facility) :
    assignWorkRoles [] hs = [] := by
  cases hs <;> rfl

theorem assignWorkRoles_cons (h0 : Facility) (hs : List Facility)
    (e0 : Device) (rest : List Device) :
    assignWorkRoles (e0 :: rest) (h0 :: hs) =
      (e0 :: rest).map (fun d =>
        if d.id = (pickClosest h0.position (roleReset e0)
            ((e0 :: rest).map roleReset)).id
        then rolePromote (roleReset d) else roleReset d) := by
  have h1 : assignWorkRoles (e0 :: rest) (h0 :: hs) =
      ((e0 :: rest).map roleReset).map (fun d =>
        if d.id = (pickClosest h0.position (roleReset e0)
            ((e0 :: rest).map roleReset)).id
        then rolePromote d else d) := rfl
  rw [h1, List.map_map]
  rfl

theorem assignWorkRoles_map_form (ds : List Device) (hs : List Facility) :
    ∃ g : Device → Device, assignWorkRoles ds hs = ds.map g ∧
      ∀ d, (g d).id = d.id ∧ (g d).position = d.position ∧
        (g d).isOnline = d.isOnline := by
  cases hs with
  | nil => exact ⟨roleReset, assignWorkRoles_nil_hosp ds, roleReset_fields⟩
  | cons h0 hs =>
    cases ds with
    | nil => exact ⟨roleReset, by simp [assignWorkRoles_nil_dev], roleReset_fields⟩
    | cons e0 rest =>
      refine ⟨fun d =>
        if d.id = (pickClosest h0.position (roleReset e0)
            ((e0 :: rest).map roleReset)).id
        then rolePromote (roleReset d) else roleReset d,
        assignWorkRoles_cons h0 hs e0 rest, fun d => ?_⟩
      dsimp only
      by_cases h : d.id = (pickClosest h0.position (roleReset e0)
          ((e0 :: rest).map roleReset)).id
      · rw [if_pos h]
        exact ⟨rfl, rfl, rfl⟩
      · rw [if_neg h]
        exact ⟨rfl, rfl, rfl⟩

theorem updateNetworkTopology_id_online (s : ServiceState) :
    (updateNetworkTopology s).devices.map (fun d => (d.id, d.isOnline)) =
      s.devices.map (fun d => (d.id, d.isOnline)) := by
  by_cases hlt : (s.devices.filter isOnlinePositioned).length < 2
  · simp [updateNetworkTopology, hlt]
  · obtain ⟨g, hg, hpres⟩ :=
      assignWorkRoles_map_form (s.devices.filter isOnlinePositioned) s.hospitals
    have hdev : (updateNetworkTopology s).devices =
        s.devices.map (fun d => if isOnlinePositioned d then g d else d) := by
      simp only [updateNetworkTopology, if_neg hlt]
      rw [hg, mergeRoles_filter_map]
    rw [hdev, List.map_map]
    refine List.map_congr_left fun d hd => ?_
    by_cases hp : isOnlinePositioned d
    · simp [Function.comp, hp, (hpres d).1, (hpres d).2.2]
    · simp [Function.comp, hp]

theorem sweepDev_id (now : ℤ) (d : Device) : (sweepDev now d).id = d.id := by
  unfold sweepDev; split <;> rfl

/-- C7: the staleness sweep flips `isOnline` to `false` exactly for
devices whose `lastUpdate` is strictly older than `30000` ms before
`now` (so `now - 30001` goes offline while `now - 29999` stays online);
a device that never reported (`lastUpdate = none`) is untouched; the
service applies exactly this per-device sweep to its registry; and a
sweep that changes no device's online state publishes no snapshot. -/
theorem c7_staleness_sweep (now : ℤ) (s : ServiceState) :
    (∀ (d : Device) (t : ℤ), d.lastUpdate = some t → t < now - 30000 →
      (sweepDev now d).isOnline = false) ∧
    (∀ (d : Device) (t : ℤ), d.lastUpdate = some t → now - 30000 ≤ t →
      sweepDev now d = d) ∧
    (∀ d : Device, d.lastUpdate = none → sweepDev now d = d) ∧
    ((markOfflineIfStale now s).1.devices.map (fun d => (d.id, d.isOnline)) =
      s.devices.map (fun d => (d.id, (sweepDev now d).isOnline))) ∧
    ((∀ d ∈ s.devices, ¬(staleAt now d = true ∧ d.isOnline = true)) →
      (markOfflineIfStale now s).2 = []) := by
  refine ⟨?_, ?_, ?_, ?_, ?_⟩
  · intro d t hlu hlt
    have hst : staleAt now d = true := by simp [staleAt, hlu]; omega
    by_cases ho : d.isOnline
    · simp [sweepDev, hst, ho]
    · simp only [Bool.not_eq_true] at ho
      simp [sweepDev, ho]
  · intro d t hlu hge
    have hst : staleAt now d = false := by simp [staleAt, hlu]; omega
    simp [sweepDev, hst]
  · intro d hlu
    have hst : staleAt now d = false := by simp [staleAt, hlu]
    simp [sweepDev, hst]
  · have hmap : ∀ ds : List Device,
        (ds.map (sweepDev now)).map (fun d => (d.id, d.isOnline)) =
          ds.map (fun d => (d.id, (sweepDev now d).isOnline)) := by
      intro ds
      rw [List.map_map]
      exact List.map_congr_left fun d hd => by
        simp [Function.comp, sweepDev_id]
    by_cases hch : s.devices.any (fun d => staleAt now d && d.isOnline)
    · have h1 : (markOfflineIfStale now s).1 =
          updateNetworkTopology { s with devices := s.devices.map (sweepDev now) } := by
        simp [markOfflineIfStale, hch]
      rw [h1, updateNetworkTopology_id_online]
      exact hmap s.devices
    · have h1 : (markOfflineIfStale now s).1 =
          { s with devices := s.devices.map (sweepDev now) } := by
        simp [markOfflineIfStale, hch]
      rw [h1]
      exact hmap s.devices
  · intro hall
    have hch : s.devices.any (fun d => staleAt now d && d.isOnline) = false := by
      simp only [List.any_eq_false, Bool.and_eq_true, not_and]
      intro d hd hst ho
      exact hall d hd ⟨hst, ho⟩
    simp [markOfflineIfStale, hch]

theorem c7_witness :
    (∀ d ∈ exStateFresh.devices,
      ¬(staleAt 100000 d = true ∧ d.isOnline = true)) ∧
    (markOfflineIfStale 100000 exStateFresh).2 = [] :=
  ⟨by decide, (c7_staleness_sweep 100000 exStateFresh).2.2.2.2 (by decide)⟩

/-- C1 (amended): of the mutating events, a location update for a known
device publishes two snapshots (one from the hospital refresh, one from
the deferred notify), a hospital refresh publishes one, a device
removal publishes one, and a stale sweep that flipped at least one
online device publishes one — each snapshot going to every subscriber —
but registering a device and changing the topology mode publish
nothing, contrary to the claim. -/
theorem c1_publication_amended :
    (∀ (deviceId deviceName workRole : String) (s : ServiceState),
      (registerDevice deviceId deviceName workRole s).2 = []) ∧
    (∀ (topology : String) (s : ServiceState),
      (setNetworkTopology topology s).2 = []) ∧
    (∀ (deviceId : String) (s : ServiceState),
      (removeDevice deviceId s).2.length = 1) ∧
    (∀ (latitude longitude radiusKm : ℝ) (dirResp : DirectoryResponse)
        (routeResps : List RouteResponse) (s : ServiceState),
      (updateHospitals latitude longitude radiusKm dirResp routeResps
        s).2.length = 1) ∧
    (∀ (deviceId : String) (pos : ℝ × ℝ) (accuracy : ℝ) (now : ℤ)
        (dirResp : DirectoryResponse) (routeResps : List RouteResponse)
        (s : ServiceState),
      s.devices.any (fun d => d.id = deviceId) = true →
      (updateDeviceLocation deviceId pos accuracy now dirResp routeResps
        s).2.length = 2) ∧
    (∀ (now : ℤ) (s : ServiceState),
      s.devices.any (fun d => staleAt now d && d.isOnline) = true →
      (markOfflineIfStale now s).2.length = 1) := by
  refine ⟨fun _ _ _ _ => rfl, fun _ _ => rfl, fun _ _ => rfl,
    fun _ _ _ _ _ _ => rfl, ?_, ?_⟩
  · intro deviceId pos accuracy now dirResp routeResps s h
    unfold updateDeviceLocation
    rw [if_pos h]
    rfl
  · intro now s h
    unfold markOfflineIfStale
    rw [if_pos h]
    rfl

theorem c1_witness :
    exStateOne.devices.any (fun d => d.id = "a") = true ∧
    (updateDeviceLocation "a" (2, 2) 0 0 .failure [] exStateOne).2.length
      = 2 :=
  ⟨by decide,
   c1_publication_amended.2.2.2.2.1 "a" (2, 2) 0 0 .failure [] exStateOne
     (by decide)⟩

/-- C1 counterexample: in a state with one subscribed callback, the два
mutating events "device add" and "topology-mode change" publish no
snapshot at all, so the subscriber receives nothing. -/
theorem c1_counterexample :
    exStateSub.subscribers = 1 ∧
    (registerDevice "device-1" "Worker-1" "worker" exStateSub).2 = [] ∧
    (setNetworkTopology "mst" exStateSub).2 = [] :=
  ⟨rfl, rfl, rfl⟩

end LocationTracker

namespace LocationTracker

theorem pickClosest_spec (pos : ℝ × ℝ) (init : Device) (ds : List Device) :
    (pickClosest pos init ds ∈ init :: ds) ∧
    ∀ x ∈ init :: ds,
      devFacDist (pickClosest pos init ds) pos ≤ devFacDist x pos := by
  induction ds generalizing init with
  | nil => simp [pickClosest]
  | cons d ds ih =>
    by_cases hlt : devFacDist d pos < devFacDist init pos
    · obtain ⟨hmem, hmin⟩ := ih d
      have step : pickClosest pos init (d :: ds) = pickClosest pos d ds := by
        simp [pickClosest, hlt]
      constructor
      · rw [step]
        rcases List.mem_cons.1 hmem with h | h <;> simp [h, List.mem_cons]
      · intro x hx
        rw [step]
        rcases List.mem_cons.1 hx with h | hx2
        · rw [h]
          exact le_trans (hmin d (List.mem_cons_self d ds)) (le_of_lt hlt)
        · rcases List.mem_cons.1 hx2 with h | hx3
          · rw [h]
            exact hmin d (List.mem_cons_self d ds)
          · exact hmin x (List.mem_cons_of_mem d hx3)
    · obtain ⟨hmem, hmin⟩ := ih init
      have step : pickClosest pos init (d :: ds) = pickClosest pos init ds := by
        simp [pickClosest, hlt]
      constructor
      · rw [step]
        rcases List.mem_cons.1 hmem with h | h <;> simp [h, List.mem_cons]
      · intro x hx
        rw [step]
        rcases List.mem_cons.1 hx with h | hx2
        · rw [h]
          exact hmin init (List.mem_cons_self init ds)
        · rcases List.mem_cons.1 hx2 with h | hx3
          · rw [h]
            exact le_trans (hmin init (List.mem_cons_self init ds))
              (not_lt.1 hlt)
          · exact hmin x (List.mem_cons_of_mem init hx3)

theorem countP_id_eq_one (l : List Device)
    (hn : (l.map Device.id).Nodup) (e : Device) (he : e ∈ l) :
    l.countP (fun d => decide (d.id = e.id)) = 1 := by
  induction l with
  | nil => cases he
  | cons a t ih =>
    simp only [List.map_cons, List.nodup_cons] at hn
    obtain ⟨hna, hnt⟩ := hn
    rcases List.mem_cons.1 he with rfl | het
    · rw [List.countP_cons_of_pos (fun d => decide (d.id = e.id)) t
        (by simp)]
      have ht : t.countP (fun d => decide (d.id = e.id)) = 0 := by
        rw [List.countP_eq_zero]
        intro d hd hpd
        rw [decide_eq_true_eq] at hpd
        exact hna (by rw [← hpd]; exact List.mem_map_of_mem Device.id hd)
      omega
    · have hne : ¬(a.id = e.id) := fun hcontra =>
        hna (by rw [hcontra]; exact List.mem_map_of_mem Device.id het)
      rw [List.countP_cons_of_neg (fun d => decide (d.id = e.id)) t
        (by simpa using hne)]
      exact ih hnt het

theorem assignWorkRoles_promote (h0 : Facility) (hs : List Facility)
    (ds : List Device) (hne : ds ≠ []) :
    ∃ c ∈ ds.map roleReset,
      assignWorkRoles ds (h0 :: hs) = ds.map (fun d =>
        if d.id = c.id then rolePromote (roleReset d) else roleReset d) ∧
      ∀ x ∈ ds.map roleReset,
        devFacDist c h0.position ≤ devFacDist x h0.position := by
  cases ds with
  | nil => exact absurd rfl hne
  | cons e0 rest =>
    obtain ⟨hmem, hmin⟩ :=
      pickClosest_spec h0.position (roleReset e0) ((e0 :: rest).map roleReset)
    refine ⟨pickClosest h0.position (roleReset e0) ((e0 :: rest).map roleReset),
      ?_, assignWorkRoles_cons h0 hs e0 rest, ?_⟩
    · rcases List.mem_cons.1 hmem with h | h
      · rw [h]; simp
      · exact h
    · intro x hx
      exact hmin x (List.mem_cons_of_mem _ hx)

theorem topo_devices_online (s : ServiceState)
    (hlt2 : ¬ (s.devices.filter isOnlinePositioned).length < 2)
    (g : Device → Device)
    (hg : assignWorkRoles (s.devices.filter isOnlinePositioned) s.hospitals =
      (s.devices.filter isOnlinePositioned).map g)
    (hpred : ∀ d, isOnlinePositioned (g d) = isOnlinePositioned d) :
    (updateNetworkTopology s).devices.filter isOnlinePositioned =
      (s.devices.filter isOnlinePositioned).map g := by
  have hdev : (updateNetworkTopology s).devices =
      s.devices.map (fun d => if isOnlinePositioned d then g d else d) := by
    simp only [updateNetworkTopology, if_neg hlt2]
    rw [hg, mergeRoles_filter_map]
  rw [hdev, List.filter_map]
  have hfc : s.devices.filter
      (isOnlinePositioned ∘ fun d => if isOnlinePositioned d then g d else d)
      = s.devices.filter isOnlinePositioned := by
    refine List.filter_congr fun d hd => ?_
    by_cases hp : isOnlinePositioned d <;> simp [Function.comp, hp, hpred]
  rw [hfc]
  refine List.map_congr_left fun d hd => ?_
  have hp : isOnlinePositioned d = true := (List.mem_filter.1 hd).2
  simp [hp]

/-- C2 (amended): role assignment runs only when the rebuild sees at
least two online positioned devices (with fewer, `updateNetworkTopology`
returns before `assignWorkRoles`).  When it runs over a registry with
unique ids: with zero facilities every online positioned device ends as
`worker` with `emergencyResponder = false`; with at least one facility,
non-promoted devices end as `worker`/`false`, and exactly one device —
one at minimum distance to the top-ranked facility — ends as
`emergency-responder` with `emergencyResponder = true`. -/
theorem c2_role_assignment_amended (s : ServiceState)
    (hn : (s.devices.map Device.id).Nodup)
    (h2 : 2 ≤ (s.devices.filter isOnlinePositioned).length) :
    (s.hospitals = [] →
      (((updateNetworkTopology s).devices.filter
          isOnlinePositioned).filter (fun d => d.emergencyResponder)).length
        = 0 ∧
      ∀ d ∈ (updateNetworkTopology s).devices.filter isOnlinePositioned,
        d.workRole = "worker" ∧ d.emergencyResponder = false) ∧
    (∀ (h0 : Facility) (hs : List Facility), s.hospitals = h0 :: hs →
      (((updateNetworkTopology s).devices.filter
          isOnlinePositioned).filter (fun d => d.emergencyResponder)).length
        = 1 ∧
      (∀ d ∈ (updateNetworkTopology s).devices.filter isOnlinePositioned,
        d.emergencyResponder = false → d.workRole = "worker") ∧
      (∀ d ∈ (updateNetworkTopology s).devices.filter isOnlinePositioned,
        d.emergencyResponder = true → d.workRole = "emergency-responder" ∧
          ∀ e ∈ (updateNetworkTopology s).devices.filter isOnlinePositioned,
            devFacDist d h0.position ≤ devFacDist e h0.position)) := by
  have hlt2 : ¬ (s.devices.filter isOnlinePositioned).length < 2 :=
    not_lt.2 h2
  have honline_nodup :
      ((s.devices.filter isOnlinePositioned).map Device.id).Nodup :=
    hn.sublist ((List.filter_sublist _).map Device.id)
  constructor
  · intro hhosp
    have honline' := topo_devices_online s hlt2 roleReset
      (by rw [hhosp]; exact assignWorkRoles_nil_hosp _) (fun d => rfl)
    constructor
    · rw [honline', List.filter_map]
      have h0' : (s.devices.filter isOnlinePositioned).filter
          ((fun d => d.emergencyResponder) ∘ roleReset) = [] := by
        have : ∀ d ∈ s.devices.filter isOnlinePositioned,
            ((fun d => d.emergencyResponder) ∘ roleReset) d
              = (fun _ => false) d := fun d hd => rfl
        rw [List.filter_congr this, List.filter_false]
      rw [h0']
      rfl
    · intro d hd
      rw [honline'] at hd
      obtain ⟨x, hx, rfl⟩ := List.mem_map.1 hd
      exact ⟨rfl, rfl⟩
  · intro h0 hs hhosp
    have hnonempty : s.devices.filter isOnlinePositioned ≠ [] := by
      intro hcontra
      rw [hcontra] at h2
      simp at h2
    obtain ⟨c, hcmem, hroles, hcmin⟩ :=
      assignWorkRoles_promote h0 hs (s.devices.filter isOnlinePositioned)
        hnonempty
    have hpred : ∀ d, isOnlinePositioned
        (if d.id = c.id then rolePromote (roleReset d) else roleReset d)
        = isOnlinePositioned d := by
      intro d
      by_cases hid : d.id = c.id
      · rw [if_pos hid]
        rfl
      · rw [if_neg hid]
        rfl
    have honline' := topo_devices_online s hlt2 _
      (by rw [hhosp]; exact hroles) hpred
    obtain ⟨ec, hec, hceq⟩ := List.mem_map.1 hcmem
    have hcid : c.id = ec.id := by rw [← hceq]; rfl
    refine ⟨?_, ?_, ?_⟩
    · rw [honline', List.filter_map, List.length_map,
        ← List.countP_eq_length_filter]
      have hcongr : (s.devices.filter isOnlinePositioned).countP
          ((fun d => d.emergencyResponder) ∘ fun d =>
            if d.id = c.id then rolePromote (roleReset d) else roleReset d)
          = (s.devices.filter isOnlinePositioned).countP
            (fun d => decide (d.id = ec.id)) := by
        refine List.countP_congr fun d hd => ?_
        by_cases hid : d.id = c.id
        · simp [Function.comp, hid, hcid, rolePromote, roleReset]
        · have hid' : ¬(d.id = ec.id) := by rw [← hcid]; exact hid
          simp [Function.comp, hid, hid', rolePromote, roleReset]
      rw [hcongr]
      exact countP_id_eq_one _ honline_nodup ec hec
    · intro d hd hresp
      rw [honline'] at hd
      obtain ⟨x, hx, rfl⟩ := List.mem_map.1 hd
      by_cases hid : x.id = c.id
      · rw [if_pos hid] at hresp ⊢
        exact absurd hresp (by simp [rolePromote])
      · rw [if_neg hid]
        rfl
    · intro d hd hresp
      rw [honline'] at hd
      obtain ⟨x, hx, hxd⟩ := List.mem_map.1 hd
      by_cases hid : x.id = c.id
      · rw [if_pos hid] at hxd
        subst hxd
        refine ⟨rfl, ?_⟩
        intro e he
        rw [honline'] at he
        obtain ⟨y, hy, hyd⟩ := List.mem_map.1 he
        have hxec : x = ec := by
          refine List.inj_on_of_nodup_map honline_nodup hx hec ?_
          rw [hid, hcid]
        have hdx : devFacDist (rolePromote (roleReset x)) h0.position
            = devFacDist c h0.position := by
          rw [hxec, ← hceq]
          rfl
        have hey : devFacDist e h0.position
            = devFacDist (roleReset y) h0.position := by
          rw [← hyd]
          by_cases hyid : y.id = c.id
          · rw [if_pos hyid]
            rfl
          · rw [if_neg hyid]
        rw [hdx, hey]
        exact hcmin (roleReset y) (List.mem_map_of_mem roleReset hy)
      · rw [if_neg hid] at hxd
        subst hxd
        exact absurd hresp (by simp [roleReset])

theorem c2_witness :
    (exStateTwo.devices.map Device.id).Nodup ∧
    2 ≤ (exStateTwo.devices.filter isOnlinePositioned).length ∧
    exStateTwo.hospitals = exFacility :: [] ∧
    (((updateNetworkTopology exStateTwo).devices.filter
        isOnlinePositioned).filter (fun d => d.emergencyResponder)).length
      = 1 :=
  ⟨by decide, by decide, rfl,
   ((c2_role_assignment_amended exStateTwo (by decide) (by decide)).2
     exFacility [] rfl).1⟩

/-- C2 counterexample: with exactly one online positioned device and one
facility, the rebuild returns before role assignment, so zero devices —
not exactly one — end with `emergencyResponder = true`. -/
theorem c2_counterexample :
    (exStateOne.devices.filter isOnlinePositioned).length = 1 ∧
    exStateOne.hospitals ≠ [] ∧
    (((updateNetworkTopology exStateOne).devices.filter
        isOnlinePositioned).filter (fun d => d.emergencyResponder)).length
      = 0 :=
  ⟨rfl, by simp [exStateOne], rfl⟩

end LocationTracker

namespace LocationTracker

theorem haversine_a_lt (a1 a2 : ℝ) (h0 : 0 ≤ a1) (h12 : a1 < a2)
    (h2 : a2 < 1) :
    6371 * 2 * atan2 (Real.sqrt a1) (Real.sqrt (1 - a1)) <
      6371 * 2 * atan2 (Real.sqrt a2) (Real.sqrt (1 - a2)) := by
  have hx1 : 0 < Real.sqrt (1 - a1) := Real.sqrt_pos.2 (by linarith)
  have hx2 : 0 < Real.sqrt (1 - a2) := Real.sqrt_pos.2 (by linarith)
  have hy1 : 0 ≤ Real.sqrt a1 := Real.sqrt_nonneg _
  have hy12 : Real.sqrt a1 < Real.sqrt a2 := Real.sqrt_lt_sqrt h0 h12
  have hx21 : Real.sqrt (1 - a2) ≤ Real.sqrt (1 - a1) :=
    Real.sqrt_le_sqrt (by linarith)
  have harg : Real.sqrt a1 / Real.sqrt (1 - a1) <
      Real.sqrt a2 / Real.sqrt (1 - a2) := by
    rw [div_lt_div_iff hx1 hx2]
    nlinarith [mul_le_mul_of_nonneg_left hx21 hy1,
      mul_lt_mul_of_pos_right hy12 hx1]
  have hA := Real.arctan_strictMono harg
  unfold atan2
  rw [if_pos hx1, if_pos hx2]
  linarith

set_option maxHeartbeats 1000000 in
theorem fallback_distance_flip :
    haversine 45 0 (45 + 0.01) (0 - 0.01) <
      haversine 45 0 (45 - 0.01) (0 + 0.01) := by
  have hπ : (0 : ℝ) < π := Real.pi_pos
  have h315 : π < 3.15 := Real.pi_lt_d2
  have hu0 : (0 : ℝ) < 0.01 * (π / 180) / 2 := by positivity
  have huπ : 0.01 * (π / 180) / 2 < π := by linarith
  have hsin0 : 0 < Real.sin (0.01 * (π / 180) / 2) :=
    Real.sin_pos_of_pos_of_lt_pi hu0 huπ
  have hsinlt : Real.sin (0.01 * (π / 180) / 2) < 0.01 * (π / 180) / 2 :=
    Real.sin_lt hu0
  have hsmall : Real.sin (0.01 * (π / 180) / 2) < 0.0001 := by linarith
  have hs2 : Real.sin (0.01 * (π / 180) / 2) ^ 2 < 0.00000001 := by
    nlinarith [hsin0, hsmall]
  have hc45 : 0 < Real.cos (45 * (π / 180)) :=
    Real.cos_pos_of_mem_Ioo ⟨by linarith, by linarith⟩
  have hcC : 0 < Real.cos ((45 + 0.01) * (π / 180)) :=
    Real.cos_pos_of_mem_Ioo ⟨by linarith, by linarith⟩
  have hcG : 0 < Real.cos ((45 - 0.01) * (π / 180)) :=
    Real.cos_pos_of_mem_Ioo ⟨by linarith, by linarith⟩
  have hflip : Real.cos ((45 + 0.01) * (π / 180)) <
      Real.cos ((45 - 0.01) * (π / 180)) :=
    Real.cos_lt_cos_of_nonneg_of_le_pi (by linarith) (by linarith)
      (by linarith)
  have h45le : Real.cos (45 * (π / 180)) ≤ 1 := Real.cos_le_one _
  have h1le : Real.cos ((45 - 0.01) * (π / 180)) ≤ 1 := Real.cos_le_one _
  have hprod : Real.cos (45 * (π / 180)) *
      Real.cos ((45 - 0.01) * (π / 180)) ≤ 1 := by
    nlinarith [hcG.le, h45le, h1le]
  rw [haversine_def, haversine_def]
  have e1 : (45 + 0.01 - 45 : ℝ) * (π / 180) / 2 = 0.01 * (π / 180) / 2 :=
    by ring
  have e2 : (0 - 0.01 - 0 : ℝ) * (π / 180) / 2 =
      -(0.01 * (π / 180) / 2) := by ring
  have e3 : (45 - 0.01 - 45 : ℝ) * (π / 180) / 2 =
      -(0.01 * (π / 180) / 2) := by ring
  have e4 : (0 + 0.01 - 0 : ℝ) * (π / 180) / 2 = 0.01 * (π / 180) / 2 :=
    by ring
  rw [e1, e2, e3, e4, Real.sin_neg, neg_sq]
  have hA : (0 : ℝ) ≤ Real.sin (0.01 * (π / 180) / 2) ^ 2 +
      Real.cos (45 * (π / 180)) * Real.cos ((45 + 0.01) * (π / 180)) *
        Real.sin (0.01 * (π / 180) / 2) ^ 2 := by
    nlinarith [sq_nonneg (Real.sin (0.01 * (π / 180) / 2)),
      mul_nonneg (mul_nonneg hc45.le hcC.le)
        (sq_nonneg (Real.sin (0.01 * (π / 180) / 2)))]
  have hB : Real.sin (0.01 * (π / 180) / 2) ^ 2 +
      Real.cos (45 * (π / 180)) * Real.cos ((45 + 0.01) * (π / 180)) *
        Real.sin (0.01 * (π / 180) / 2) ^ 2 <
      Real.sin (0.01 * (π / 180) / 2) ^ 2 +
      Real.cos (45 * (π / 180)) * Real.cos ((45 - 0.01) * (π / 180)) *
        Real.sin (0.01 * (π / 180) / 2) ^ 2 := by
    nlinarith [mul_pos (mul_pos hc45 (pow_pos hsin0 2)) (sub_pos.2 hflip)]
  have hbound : Real.cos (45 * (π / 180)) *
      Real.cos ((45 - 0.01) * (π / 180)) *
      Real.sin (0.01 * (π / 180) / 2) ^ 2 ≤
      Real.sin (0.01 * (π / 180) / 2) ^ 2 :=
    mul_le_of_le_one_left (sq_nonneg _) hprod
  have hC : Real.sin (0.01 * (π / 180) / 2) ^ 2 +
      Real.cos (45 * (π / 180)) * Real.cos ((45 - 0.01) * (π / 180)) *
        Real.sin (0.01 * (π / 180) / 2) ^ 2 < 1 := by
    linarith [hs2, hbound]
  exact haversine_a_lt _ _ hA hB hC

theorem not_claimSorted_four (a b c d : Facility)
    (hpri : c.workPriority = d.workPriority)
    (hdist : d.distance < c.distance) :
    ¬ claimSorted [a, b, c, d] := by
  intro h
  unfold claimSorted at h
  rw [List.chain'_cons, List.chain'_cons, List.chain'_cons] at h
  rcases h.2.2.1 with hgt | ⟨heq, hle⟩
  · omega
  · linarith

set_option maxHeartbeats 1600000 in
/-- C3 counterexample: at origin `(45, 0)` the fallback ranking places
the priority-5 facility "General Hospital" (the farther of the two, at
latitude `44.99`) before "City Medical Center" (the closer, at latitude
`45.01`), so the returned list violates the claimed
distance-on-priority-ties order. -/
theorem c3_counterexample :
    ¬ claimSorted (findNearbyHospitals 45 0 2 .failure) :=
  not_claimSorted_four _ _ _ _ rfl fallback_distance_flip

end LocationTracker
